import Mathlib

/-!
Shallow embedding of `aioarangodb/cluster.py`: the request / execute /
response-handler pipeline of the `Cluster` API wrapper.

JSON bodies are modelled by the inductive `Json`; Python `dict`s are
association lists preserving insertion order (keys unique in practice).
Each endpoint method of `Cluster` builds one `Request` and one response
handler and passes both to an abstract executor.  A handler is modelled
in state-passing style, `Response → Except PyError Json × Response`,
because `health`'s handler mutates `resp.body` in place via `dict.pop`.
Exceptions a handler can raise are modelled by `PyError`: the typed
Arango errors of `exceptions.py`, plus `KeyError` / `TypeError` arising
from subscripting or popping a body that lacks the expected shape.
-/

/-- Decoded JSON-like payload of a response body. -/
inductive Json where
  | null : Json
  | bool : Bool → Json
  | num : Int → Json
  | str : String → Json
  | arr : List Json → Json
  | obj : List (String × Json) → Json
deriving Repr

/-- Request: method, endpoint path, query params, headers, optional body
(`data` is the already-serialized payload string, as in
`toggle_maintenance_mode`). -/
structure Request where
  method : String
  endpoint : String
  params : List (String × String) := []
  headers : List (String × String) := []
  data : Option String := none
deriving Repr

/-- Response: status code, success flag and decoded body. -/
structure Response where
  status_code : Int
  is_success : Bool
  body : Json
deriving Repr

/-- The typed per-operation errors of `aioarangodb.exceptions`, each
carrying the offending Response and originating Request. -/
inductive ClusterError where
  | serverID : Response → Request → ClusterError
  | serverRole : Response → Request → ClusterError
  | serverVersion : Response → Request → ClusterError
  | serverEngine : Response → Request → ClusterError
  | serverStatistics : Response → Request → ClusterError
  | health : Response → Request → ClusterError
  | maintenanceMode : Response → Request → ClusterError
  | endpoints : Response → Request → ClusterError
deriving Repr

/-- Exceptions a response handler can raise: a typed Arango error, or a
Python `KeyError` / `TypeError` from accessing the body. -/
inductive PyError where
  | typed : ClusterError → PyError
  | keyError : String → PyError
  | typeError : PyError
deriving Repr

/-- Python `d[k]` on a decoded body: association-list lookup on a dict,
`KeyError` when the key is absent, `TypeError` when the value is not
subscriptable by a string. -/
def Json.getField : Json → String → Except PyError Json
  | .obj fields, k =>
    match fields.lookup k with
    | some v => .ok v
    | none => .error (.keyError k)
  | _, _ => .error .typeError

/-- Python `d.pop(k)` on a decoded body: returns the popped value and the
remaining dict (first binding of `k` removed), `KeyError` when absent,
`TypeError` when the receiver is not a dict. -/
def Json.popKey : Json → String → Except PyError (Json × Json)
  | .obj fields, k =>
    match fields.lookup k with
    | some v => .ok (v, .obj (fields.eraseP (fun p => p.1 == k)))
    | none => .error (.keyError k)
  | _, _ => .error .typeError

/-- Python iteration `for item in j`: lists yield elements, dicts yield
their keys, strings yield one-character strings; other scalars raise
`TypeError`. -/
def Json.asIterable : Json → Except PyError (List Json)
  | .arr xs => .ok xs
  | .obj fields => .ok (fields.map (fun p => Json.str p.1))
  | .str s => .ok (s.toList.map (fun c => Json.str (String.mk [c])))
  | _ => .error .typeError

/-- A response handler in state-passing style: result of the handler and
the Response as it stands after the handler ran (so that in-place
mutation of `resp.body` is observable). -/
def Handler : Type := Response → Except PyError Json × Response

/-- An executor strategy: accepts a Request plus a handler and produces
some result (immediately, deferred, batched, ...). -/
def Executor (M : Type) : Type := Request → Handler → M

namespace Cluster

/-- The Request built by `Cluster.server_id`. -/
def serverIdRequest : Request :=
  { method := "get", endpoint := "/_admin/server/id" }

/-- The response handler closure of `Cluster.server_id`:
on success return `resp.body['id']`, else raise `ClusterServerIDError`. -/
def serverIdHandler : Handler := fun resp =>
  if resp.is_success then (resp.body.getField "id", resp)
  else (.error (.typed (.serverID resp serverIdRequest)), resp)

/-- `Cluster.server_id`: build the request and handler, delegate to the
executor once and return its result unchanged. -/
def server_id {M : Type} (execute : Executor M) : M :=
  execute serverIdRequest serverIdHandler

/-- The Request built by `Cluster.server_role`. -/
def serverRoleRequest : Request :=
  { method := "get", endpoint := "/_admin/server/role" }

/-- The response handler closure of `Cluster.server_role`. -/
def serverRoleHandler : Handler := fun resp =>
  if resp.is_success then (resp.body.getField "role", resp)
  else (.error (.typed (.serverRole resp serverRoleRequest)), resp)

/-- `Cluster.server_role`. -/
def server_role {M : Type} (execute : Executor M) : M :=
  execute serverRoleRequest serverRoleHandler

/-- The Request built by `Cluster.server_version`: GET with the given
server ID passed verbatim as the `ServerID` query parameter. -/
def serverVersionRequest (server_id : String) : Request :=
  { method := "get", endpoint := "/_admin/cluster/nodeVersion",
    params := [("ServerID", server_id)] }

/-- The response handler closure of `Cluster.server_version`: on success
return the whole `resp.body` unchanged. -/
def serverVersionHandler (server_id : String) : Handler := fun resp =>
  if resp.is_success then (.ok resp.body, resp)
  else (.error (.typed (.serverVersion resp (serverVersionRequest server_id))), resp)

/-- `Cluster.server_version`. -/
def server_version {M : Type} (execute : Executor M) (server_id : String) : M :=
  execute (serverVersionRequest server_id) (serverVersionHandler server_id)

/-- The Request built by `Cluster.server_engine`. -/
def serverEngineRequest (server_id : String) : Request :=
  { method := "get", endpoint := "/_admin/cluster/nodeEngine",
    params := [("ServerID", server_id)] }

/-- The response handler closure of `Cluster.server_engine`. -/
def serverEngineHandler (server_id : String) : Handler := fun resp =>
  if resp.is_success then (.ok resp.body, resp)
  else (.error (.typed (.serverEngine resp (serverEngineRequest server_id))), resp)

/-- `Cluster.server_engine`. -/
def server_engine {M : Type} (execute : Executor M) (server_id : String) : M :=
  execute (serverEngineRequest server_id) (serverEngineHandler server_id)

/-- The Request built by `Cluster.server_statistics`. -/
def serverStatisticsRequest (server_id : String) : Request :=
  { method := "get", endpoint := "/_admin/cluster/nodeStatistics",
    params := [("ServerID", server_id)] }

/-- The response handler closure of `Cluster.server_statistics`. -/
def serverStatisticsHandler (server_id : String) : Handler := fun resp =>
  if resp.is_success then (.ok resp.body, resp)
  else (.error (.typed (.serverStatistics resp (serverStatisticsRequest server_id))), resp)

/-- `Cluster.server_statistics`. -/
def server_statistics {M : Type} (execute : Executor M) (server_id : String) : M :=
  execute (serverStatisticsRequest server_id) (serverStatisticsHandler server_id)

/-- The Request built by `Cluster.health`. -/
def healthRequest : Request :=
  { method := "get", endpoint := "/_admin/cluster/health" }

/-- The response handler closure of `Cluster.health`: on success it pops
`'error'` then `'code'` from `resp.body` in place and returns the
remaining body; on failure it raises `ClusterHealthError`.  The
state-passing second component records the mutation of `resp.body`. -/
def healthHandler : Handler := fun resp =>
  if resp.is_success then
    match resp.body.popKey "error" with
    | .error e => (.error e, resp)
    | .ok (_, b1) =>
      match b1.popKey "code" with
      | .error e => (.error e, { resp with body := b1 })
      | .ok (_, b2) => (.ok b2, { resp with body := b2 })
  else (.error (.typed (.health resp healthRequest)), resp)

/-- `Cluster.health`. -/
def health {M : Type} (execute : Executor M) : M :=
  execute healthRequest healthHandler

/-- The Request built by `Cluster.toggle_maintenance_mode`: a PUT whose
body is `'"{}"'.format(mode)`, the mode interpolated between double
quotes with no validation. -/
def toggleMaintenanceModeRequest (mode : String) : Request :=
  { method := "put", endpoint := "/_admin/cluster/maintenance",
    data := some ("\"" ++ mode ++ "\"") }

/-- The response handler closure of `Cluster.toggle_maintenance_mode`. -/
def toggleMaintenanceModeHandler (mode : String) : Handler := fun resp =>
  if resp.is_success then (.ok resp.body, resp)
  else (.error (.typed (.maintenanceMode resp (toggleMaintenanceModeRequest mode))), resp)

/-- `Cluster.toggle_maintenance_mode`. -/
def toggle_maintenance_mode {M : Type} (execute : Executor M) (mode : String) : M :=
  execute (toggleMaintenanceModeRequest mode) (toggleMaintenanceModeHandler mode)

/-- The Request built by `Cluster.endpoints`. -/
def endpointsRequest : Request :=
  { method := "get", endpoint := "/_api/cluster/endpoints" }

/-- The list comprehension `[item['endpoint'] for item in items]`:
left-to-right projection, first `KeyError`/`TypeError` propagates. -/
def projectEndpoints : List Json → Except PyError (List Json)
  | [] => .ok []
  | item :: rest =>
    match item.getField "endpoint" with
    | .error e => .error e
    | .ok v =>
      match projectEndpoints rest with
      | .error e => .error e
      | .ok vs => .ok (v :: vs)

/-- The response handler closure of `Cluster.endpoints`: on failure raise
`ClusterEndpointsError`; otherwise return
`[item['endpoint'] for item in resp.body['endpoints']]`. -/
def endpointsHandler : Handler := fun resp =>
  if !resp.is_success then (.error (.typed (.endpoints resp endpointsRequest)), resp)
  else
    match resp.body.getField "endpoints" with
    | .error e => (.error e, resp)
    | .ok j =>
      match j.asIterable with
      | .error e => (.error e, resp)
      | .ok items =>
        match projectEndpoints items with
        | .error e => (.error e, resp)
        | .ok vs => (.ok (.arr vs), resp)

/-- `Cluster.endpoints`. -/
def endpoints {M : Type} (execute : Executor M) : M :=
  execute endpointsRequest endpointsHandler

end Cluster

/-- An instrumenting executor that records the (request, handler) pair it
was invoked with: running a method against it yields the exact list of
executor calls the method performs. -/
def logExec : Executor (List (Request × Handler)) := fun req h => [(req, h)]

/-- An immediate executor that obtains the fixed Response `resp` from the
transport and applies the handler to it once, returning the handler's
result together with the Response as left behind by the handler. -/
def runWith (resp : Response) : Executor (Except PyError Json × Response) :=
  fun _ h => h resp

/-! ## Concrete fixtures shared by witnesses and counterexamples -/

/-- A failure Response (HTTP 503). -/
def failResp : Response := { status_code := 503, is_success := false, body := .null }

/-- A success Response whose body is `{id: "node-1"}`. -/
def idResp : Response :=
  { status_code := 200, is_success := true, body := .obj [("id", .str "node-1")] }

/-! ## Claims -/

/-- Claim C1: for every Cluster operation and every Response with
`is_success == false`, the operation's response handler raises that
operation's dedicated typed error, constructed with that Response and the
originating Request, and never returns a value (the handler's result is
exactly the raised typed error, the Response untouched). -/
theorem c1_failure_raises_typed_error
    (resp : Response) (s m : String) (h : resp.is_success = false) :
    Cluster.serverIdHandler resp
      = (.error (.typed (.serverID resp Cluster.serverIdRequest)), resp) ∧
    Cluster.serverRoleHandler resp
      = (.error (.typed (.serverRole resp Cluster.serverRoleRequest)), resp) ∧
    Cluster.serverVersionHandler s resp
      = (.error (.typed (.serverVersion resp (Cluster.serverVersionRequest s))), resp) ∧
    Cluster.serverEngineHandler s resp
      = (.error (.typed (.serverEngine resp (Cluster.serverEngineRequest s))), resp) ∧
    Cluster.serverStatisticsHandler s resp
      = (.error (.typed (.serverStatistics resp (Cluster.serverStatisticsRequest s))), resp) ∧
    Cluster.healthHandler resp
      = (.error (.typed (.health resp Cluster.healthRequest)), resp) ∧
    Cluster.toggleMaintenanceModeHandler m resp
      = (.error (.typed (.maintenanceMode resp (Cluster.toggleMaintenanceModeRequest m))), resp) ∧
    Cluster.endpointsHandler resp
      = (.error (.typed (.endpoints resp Cluster.endpointsRequest)), resp) := by
  refine ⟨?_, ?_, ?_, ?_, ?_, ?_, ?_, ?_⟩ <;>
    simp [Cluster.serverIdHandler, Cluster.serverRoleHandler,
      Cluster.serverVersionHandler, Cluster.serverEngineHandler,
      Cluster.serverStatisticsHandler, Cluster.healthHandler,
      Cluster.toggleMaintenanceModeHandler, Cluster.endpointsHandler, h]

/-- Witness for C1 at the concrete failure Response `failResp`. -/
theorem c1_witness :
    failResp.is_success = false ∧
    (Cluster.serverIdHandler failResp
      = (.error (.typed (.serverID failResp Cluster.serverIdRequest)), failResp) ∧
    Cluster.serverRoleHandler failResp
      = (.error (.typed (.serverRole failResp Cluster.serverRoleRequest)), failResp) ∧
    Cluster.serverVersionHandler "n1" failResp
      = (.error (.typed (.serverVersion failResp (Cluster.serverVersionRequest "n1"))), failResp) ∧
    Cluster.serverEngineHandler "n1" failResp
      = (.error (.typed (.serverEngine failResp (Cluster.serverEngineRequest "n1"))), failResp) ∧
    Cluster.serverStatisticsHandler "n1" failResp
      = (.error (.typed (.serverStatistics failResp (Cluster.serverStatisticsRequest "n1"))), failResp) ∧
    Cluster.healthHandler failResp
      = (.error (.typed (.health failResp Cluster.healthRequest)), failResp) ∧
    Cluster.toggleMaintenanceModeHandler "on" failResp
      = (.error (.typed (.maintenanceMode failResp (Cluster.toggleMaintenanceModeRequest "on"))), failResp) ∧
    Cluster.endpointsHandler failResp
      = (.error (.typed (.endpoints failResp Cluster.endpointsRequest)), failResp)) :=
  ⟨rfl, c1_failure_raises_typed_error failResp "n1" "on" rfl⟩

/-- Claim C5: against a success Response whose body is the mapping
`{error: false, code: 200, Node1: v}`, `health()` returns `{Node1: v}`:
the `error` and `code` bookkeeping fields removed, all other fields
preserved. -/
theorem c5_health_strips_bookkeeping (v : Json) :
    (Cluster.health (runWith
      { status_code := 200, is_success := true,
        body := .obj [("error", .bool false), ("code", .num 200), ("Node1", v)] })).1
      = .ok (.obj [("Node1", v)]) := rfl

/-- Claim C8: for every success Response whose body maps key `'id'` to a
string, `server_id()` returns that string; the body may contain other
fields. -/
theorem c8_server_id_returns_id
    (sc : Int) (fields : List (String × Json)) (s : String)
    (h : fields.lookup "id" = some (.str s)) :
    (Cluster.server_id (runWith
      { status_code := sc, is_success := true, body := .obj fields })).1
      = .ok (.str s) := by
  simp [Cluster.server_id, runWith, Cluster.serverIdHandler, Json.getField, h]

/-- Witness for C8 at the concrete success Response `{id: "node-1"}`. -/
theorem c8_witness :
    ([("id", Json.str "node-1")].lookup "id" = some (.str "node-1")) ∧
    (Cluster.server_id (runWith
      { status_code := 200, is_success := true,
        body := .obj [("id", .str "node-1")] })).1 = .ok (.str "node-1") :=
  ⟨rfl, c8_server_id_returns_id 200 [("id", .str "node-1")] "node-1" rfl⟩

/-- Claim C10: for every string `s`, `server_version(s)`,
`server_engine(s)` and `server_statistics(s)` build a GET Request whose
params mapping is exactly `{ServerID: s}` (passed through verbatim) to
`/_admin/cluster/nodeVersion`, `/_admin/cluster/nodeEngine`,
`/_admin/cluster/nodeStatistics` respectively, and on every success
Response return the entire body unchanged. -/
theorem c10_server_info_passthrough (s : String) (resp : Response)
    (h : resp.is_success = true) :
    Cluster.serverVersionRequest s
      = { method := "get", endpoint := "/_admin/cluster/nodeVersion",
          params := [("ServerID", s)], headers := [], data := none } ∧
    Cluster.serverEngineRequest s
      = { method := "get", endpoint := "/_admin/cluster/nodeEngine",
          params := [("ServerID", s)], headers := [], data := none } ∧
    Cluster.serverStatisticsRequest s
      = { method := "get", endpoint := "/_admin/cluster/nodeStatistics",
          params := [("ServerID", s)], headers := [], data := none } ∧
    (Cluster.server_version (runWith resp) s).1 = .ok resp.body ∧
    (Cluster.server_engine (runWith resp) s).1 = .ok resp.body ∧
    (Cluster.server_statistics (runWith resp) s).1 = .ok resp.body := by
  refine ⟨rfl, rfl, rfl, ?_, ?_, ?_⟩ <;>
    simp [Cluster.server_version, Cluster.server_engine, Cluster.server_statistics,
      runWith, Cluster.serverVersionHandler, Cluster.serverEngineHandler,
      Cluster.serverStatisticsHandler, h]

/-- Witness for C10 at server ID `"n1"` and the success Response `idResp`. -/
theorem c10_witness :
    idResp.is_success = true ∧
    (Cluster.serverVersionRequest "n1"
      = { method := "get", endpoint := "/_admin/cluster/nodeVersion",
          params := [("ServerID", "n1")], headers := [], data := none } ∧
    Cluster.serverEngineRequest "n1"
      = { method := "get", endpoint := "/_admin/cluster/nodeEngine",
          params := [("ServerID", "n1")], headers := [], data := none } ∧
    Cluster.serverStatisticsRequest "n1"
      = { method := "get", endpoint := "/_admin/cluster/nodeStatistics",
          params := [("ServerID", "n1")], headers := [], data := none } ∧
    (Cluster.server_version (runWith idResp) "n1").1 = .ok idResp.body ∧
    (Cluster.server_engine (runWith idResp) "n1").1 = .ok idResp.body ∧
    (Cluster.server_statistics (runWith idResp) "n1").1 = .ok idResp.body) :=
  ⟨rfl, c10_server_info_passthrough "n1" idResp rfl⟩

/-- A success Response whose body is `{error: false, code: 200, Node1: {}}`. -/
def healthSuccResp : Response :=
  { status_code := 200, is_success := true,
    body := .obj [("error", .bool false), ("code", .num 200), ("Node1", .obj [])] }

/-- Counterexample to C2: `health`'s response handler mutates the
Response it is given — after the handler runs on `healthSuccResp`, the
Response's body has lost its `error` and `code` entries, so its fields no
longer equal its fields before. -/
theorem c2_counterexample :
    (Cluster.healthHandler healthSuccResp).2 ≠ healthSuccResp := by
  have h1 : (Cluster.healthHandler healthSuccResp).2
      = { status_code := 200, is_success := true,
          body := .obj [("Node1", .obj [])] } := rfl
  rw [h1]
  simp [healthSuccResp]

/-- Claim C2 as amended: the handlers for `server_id`, `server_role`,
`server_version`, `server_engine`, `server_statistics`,
`toggle_maintenance_mode` and `endpoints` never mutate the Response, and
`health`'s handler leaves a failure Response unchanged; but on a success
Response whose body is a mapping containing `error` and (after removing
it) `code`, `health`'s handler mutates the body in place, removing
exactly those two entries. -/
theorem c2_amended_handler_mutation
    (resp : Response) (s m : String) (fields : List (String × Json)) (e c : Json) :
    (Cluster.serverIdHandler resp).2 = resp ∧
    (Cluster.serverRoleHandler resp).2 = resp ∧
    (Cluster.serverVersionHandler s resp).2 = resp ∧
    (Cluster.serverEngineHandler s resp).2 = resp ∧
    (Cluster.serverStatisticsHandler s resp).2 = resp ∧
    (Cluster.toggleMaintenanceModeHandler m resp).2 = resp ∧
    (Cluster.endpointsHandler resp).2 = resp ∧
    (resp.is_success = false → (Cluster.healthHandler resp).2 = resp) ∧
    (resp.is_success = true → resp.body = .obj fields →
      fields.lookup "error" = some e →
      (fields.eraseP (fun p => p.1 == "error")).lookup "code" = some c →
      (Cluster.healthHandler resp).2
        = { resp with
            body := Json.obj ((fields.eraseP (fun p => p.1 == "error")).eraseP
              (fun p => p.1 == "code")) }) := by
  refine ⟨?_, ?_, ?_, ?_, ?_, ?_, ?_, ?_, ?_⟩
  case _ => cases h : resp.is_success <;> simp [Cluster.serverIdHandler, h]
  case _ => cases h : resp.is_success <;> simp [Cluster.serverRoleHandler, h]
  case _ => cases h : resp.is_success <;> simp [Cluster.serverVersionHandler, h]
  case _ => cases h : resp.is_success <;> simp [Cluster.serverEngineHandler, h]
  case _ => cases h : resp.is_success <;> simp [Cluster.serverStatisticsHandler, h]
  case _ => cases h : resp.is_success <;> simp [Cluster.toggleMaintenanceModeHandler, h]
  case _ =>
    cases h : resp.is_success <;>
      · simp only [Cluster.endpointsHandler, h]
        (repeat' split) <;> rfl
  case _ => intro h; simp [Cluster.healthHandler, h]
  case _ =>
    intro hs hb he hc
    simp [Cluster.healthHandler, hs, hb, Json.popKey, he, hc]

/-- Witness for C2's amended claim at concrete Responses: `health`'s
handler strips `error` and `code` from `healthSuccResp`'s body, and
`server_id`'s handler leaves `idResp` unchanged. -/
theorem c2_amended_witness :
    healthSuccResp.is_success = true ∧
    healthSuccResp.body
      = .obj [("error", .bool false), ("code", .num 200), ("Node1", .obj [])] ∧
    ([("error", Json.bool false), ("code", .num 200), ("Node1", .obj [])].lookup "error"
      = some (.bool false)) ∧
    (Cluster.healthHandler healthSuccResp).2
      = { healthSuccResp with body := .obj [("Node1", .obj [])] } ∧
    (Cluster.serverIdHandler idResp).2 = idResp :=
  ⟨rfl, rfl, rfl,
    (c2_amended_handler_mutation healthSuccResp "n1" "on"
      [("error", .bool false), ("code", .num 200), ("Node1", .obj [])]
      (.bool false) (.num 200)).2.2.2.2.2.2.2.2 rfl rfl rfl rfl,
    (c2_amended_handler_mutation idResp "n1" "on" [] .null .null).1⟩

/-- Whether an exception is one of the typed per-operation errors (as
opposed to a `KeyError`/`TypeError` from body access). -/
def PyError.isTyped : PyError → Bool
  | .typed _ => true
  | _ => false

/-- Whether a handler result is a raised typed per-operation error. -/
def raisesTypedError : Except PyError Json → Bool
  | .error e => e.isTyped
  | .ok _ => false

/-- `d[k]` never raises a typed per-operation error: its result is a
value, a `KeyError` or a `TypeError`. -/
theorem raisesTypedError_getField (j : Json) (k : String) :
    raisesTypedError (j.getField k) = false := by
  unfold Json.getField
  split
  · split <;> rfl
  · rfl

/-- Any error raised by `d[k]` is a `KeyError`/`TypeError`, never typed. -/
theorem getField_error_not_typed (j : Json) (k : String) (e : PyError)
    (h : j.getField k = .error e) : e.isTyped = false := by
  unfold Json.getField at h
  split at h
  · split at h
    · exact absurd h (by simp)
    · injection h with h1; subst h1; rfl
  · injection h with h1; subst h1; rfl

/-- Any error raised by `d.pop(k)` is a `KeyError`/`TypeError`. -/
theorem popKey_error_not_typed (j : Json) (k : String) (e : PyError)
    (h : j.popKey k = .error e) : e.isTyped = false := by
  unfold Json.popKey at h
  split at h
  · split at h
    · exact absurd h (by simp)
    · injection h with h1; subst h1; rfl
  · injection h with h1; subst h1; rfl

/-- Any error raised by iterating a body is a `TypeError`. -/
theorem asIterable_error_not_typed (j : Json) (e : PyError)
    (h : j.asIterable = .error e) : e.isTyped = false := by
  unfold Json.asIterable at h
  split at h <;> first
    | (injection h with h1; subst h1; rfl)
    | exact absurd h (by simp)

/-- Any error raised by the endpoint projection comprehension comes from
`item['endpoint']`, hence is a `KeyError`/`TypeError`. -/
theorem projectEndpoints_error_not_typed (items : List Json) :
    ∀ e : PyError, Cluster.projectEndpoints items = .error e → e.isTyped = false := by
  induction items with
  | nil =>
    intro e h
    simp [Cluster.projectEndpoints] at h
  | cons item rest ih =>
    intro e h
    unfold Cluster.projectEndpoints at h
    split at h
    next e1 heq =>
      injection h with h1
      subst h1
      exact getField_error_not_typed item "endpoint" _ heq
    next v heq =>
      split at h
      next e2 heq2 =>
        injection h with h1
        subst h1
        exact ih _ heq2
      next vs heq3 =>
        exact absurd h (by simp)

/-- A success Response whose decoded body is the empty mapping `{}`. -/
def emptyBodyResp : Response :=
  { status_code := 200, is_success := true, body := .obj [] }

/-- Counterexample to C3: on the success Response with body `{}`,
`server_id`'s handler raises `KeyError('id')` — an exception that is not
the operation's typed error (`ClusterServerIDError`) and not a returned
value, so the handler is not total in the claimed sense. -/
theorem c3_counterexample :
    (Cluster.serverIdHandler emptyBodyResp).1
      = Except.error (PyError.keyError "id") ∧
    Except.error (α := Json) (PyError.keyError "id")
      ≠ Except.error (PyError.typed (.serverID emptyBodyResp Cluster.serverIdRequest)) := by
  refine ⟨rfl, ?_⟩
  simp [PyError.keyError.injEq]

/-- Claim C3 as amended: every handler still decides success solely by
`is_success` — on a failure Response it always raises the operation's
typed error, and on a success Response it never raises the typed error;
`server_version`, `server_engine`, `server_statistics` and
`toggle_maintenance_mode` always return the whole body on success, while
`server_id`, `server_role`, `health` and `endpoints` return a value for
well-shaped bodies but raise a `KeyError`/`TypeError` (not the typed
error) when the body lacks the expected keys or shape. -/
theorem c3_amended_totality (resp : Response) (s m : String) :
    (resp.is_success = true →
      (Cluster.serverVersionHandler s resp).1 = .ok resp.body ∧
      (Cluster.serverEngineHandler s resp).1 = .ok resp.body ∧
      (Cluster.serverStatisticsHandler s resp).1 = .ok resp.body ∧
      (Cluster.toggleMaintenanceModeHandler m resp).1 = .ok resp.body ∧
      raisesTypedError (Cluster.serverIdHandler resp).1 = false ∧
      raisesTypedError (Cluster.serverRoleHandler resp).1 = false ∧
      raisesTypedError (Cluster.healthHandler resp).1 = false ∧
      raisesTypedError (Cluster.endpointsHandler resp).1 = false) ∧
    (resp.is_success = false →
      raisesTypedError (Cluster.serverIdHandler resp).1 = true ∧
      raisesTypedError (Cluster.serverRoleHandler resp).1 = true ∧
      raisesTypedError (Cluster.serverVersionHandler s resp).1 = true ∧
      raisesTypedError (Cluster.serverEngineHandler s resp).1 = true ∧
      raisesTypedError (Cluster.serverStatisticsHandler s resp).1 = true ∧
      raisesTypedError (Cluster.healthHandler resp).1 = true ∧
      raisesTypedError (Cluster.toggleMaintenanceModeHandler m resp).1 = true ∧
      raisesTypedError (Cluster.endpointsHandler resp).1 = true) := by
  constructor
  · intro h
    refine ⟨?_, ?_, ?_, ?_, ?_, ?_, ?_, ?_⟩
    · simp [Cluster.serverVersionHandler, h]
    · simp [Cluster.serverEngineHandler, h]
    · simp [Cluster.serverStatisticsHandler, h]
    · simp [Cluster.toggleMaintenanceModeHandler, h]
    · simp [Cluster.serverIdHandler, h, raisesTypedError_getField]
    · simp [Cluster.serverRoleHandler, h, raisesTypedError_getField]
    · cases hk : resp.body.popKey "error" with
      | error e =>
        simp only [Cluster.healthHandler, h, if_true, hk]
        simpa [raisesTypedError] using popKey_error_not_typed _ _ _ hk
      | ok p =>
        obtain ⟨v, b1⟩ := p
        cases hk2 : b1.popKey "code" with
        | error e2 =>
          simp only [Cluster.healthHandler, h, if_true, hk, hk2]
          simpa [raisesTypedError] using popKey_error_not_typed _ _ _ hk2
        | ok q =>
          obtain ⟨w, b2⟩ := q
          simp [Cluster.healthHandler, h, hk, hk2, raisesTypedError]
    · cases hk : resp.body.getField "endpoints" with
      | error e =>
        simp only [Cluster.endpointsHandler, h, Bool.not_true, Bool.false_eq_true,
          if_false, hk]
        simpa [raisesTypedError] using getField_error_not_typed _ _ _ hk
      | ok j =>
        cases hk2 : j.asIterable with
        | error e2 =>
          simp only [Cluster.endpointsHandler, h, Bool.not_true, Bool.false_eq_true,
            if_false, hk, hk2]
          simpa [raisesTypedError] using asIterable_error_not_typed _ _ hk2
        | ok items =>
          cases hk3 : Cluster.projectEndpoints items with
          | error e3 =>
            simp only [Cluster.endpointsHandler, h, Bool.not_true, Bool.false_eq_true,
              if_false, hk, hk2, hk3]
            simpa [raisesTypedError] using projectEndpoints_error_not_typed items _ hk3
          | ok vs =>
            simp [Cluster.endpointsHandler, h, hk, hk2, hk3, raisesTypedError]
  · intro h
    refine ⟨?_, ?_, ?_, ?_, ?_, ?_, ?_, ?_⟩ <;>
      simp [Cluster.serverIdHandler, Cluster.serverRoleHandler,
        Cluster.serverVersionHandler, Cluster.serverEngineHandler,
        Cluster.serverStatisticsHandler, Cluster.healthHandler,
        Cluster.toggleMaintenanceModeHandler, Cluster.endpointsHandler,
        h, raisesTypedError, PyError.isTyped]

/-- Witness for C3's amended claim: on the success Response `{}` the
`server_id` handler raises a non-typed error, and on the failure Response
all handlers raise typed errors. -/
theorem c3_amended_witness :
    emptyBodyResp.is_success = true ∧
    raisesTypedError (Cluster.serverIdHandler emptyBodyResp).1 = false ∧
    raisesTypedError (Cluster.healthHandler emptyBodyResp).1 = false ∧
    failResp.is_success = false ∧
    raisesTypedError (Cluster.serverIdHandler failResp).1 = true ∧
    raisesTypedError (Cluster.endpointsHandler failResp).1 = true :=
  ⟨rfl,
   ((c3_amended_totality emptyBodyResp "n1" "on").1 rfl).2.2.2.2.1,
   ((c3_amended_totality emptyBodyResp "n1" "on").1 rfl).2.2.2.2.2.2.1,
   rfl,
   ((c3_amended_totality failResp "n1" "on").2 rfl).1,
   ((c3_amended_totality failResp "n1" "on").2 rfl).2.2.2.2.2.2.2⟩

/-- Counterexample to C4: with the mode `"bogus"`, which is outside the
allowed set `{"on", "off"}`, `toggle_maintenance_mode` is not rejected:
it builds the Request with `"bogus"` interpolated into the body and
passes it to the Executor (the instrumenting executor records exactly
that call). -/
theorem c4_counterexample :
    ("bogus" ≠ "on" ∧ "bogus" ≠ "off") ∧
    Cluster.toggle_maintenance_mode logExec "bogus"
      = [(Cluster.toggleMaintenanceModeRequest "bogus",
          Cluster.toggleMaintenanceModeHandler "bogus")] ∧
    (Cluster.toggleMaintenanceModeRequest "bogus").data = some "\"bogus\"" :=
  ⟨⟨by decide, by decide⟩, rfl, rfl⟩

/-- Claim C4 as amended: `toggle_maintenance_mode` performs no validation
of its mode argument — for every mode string, allowed or not, it builds
the PUT Request with the mode interpolated verbatim between double
quotes into the body and passes that Request to the Executor. -/
theorem c4_amended_no_validation (mode : String) :
    Cluster.toggle_maintenance_mode logExec mode
      = [(Cluster.toggleMaintenanceModeRequest mode,
          Cluster.toggleMaintenanceModeHandler mode)] ∧
    (Cluster.toggleMaintenanceModeRequest mode).method = "put" ∧
    (Cluster.toggleMaintenanceModeRequest mode).endpoint = "/_admin/cluster/maintenance" ∧
    (Cluster.toggleMaintenanceModeRequest mode).data = some ("\"" ++ mode ++ "\"") :=
  ⟨rfl, rfl, rfl, rfl⟩

/-- Counterexample to C6: `toggle_maintenance_mode("on")` does build the
body `'"on"'`, but that body is the four characters `"`, `o`, `n`, `"` —
not five as the claim counts them. -/
theorem c6_counterexample :
    (Cluster.toggleMaintenanceModeRequest "on").data = some "\"on\"" ∧
    ("\"on\"" : String).length = 4 :=
  ⟨rfl, rfl⟩

/-- Claim C6 as amended: `toggle_maintenance_mode("on")` builds exactly
one Request — PUT to `/_admin/cluster/maintenance` with body the literal
JSON string `"on"` (the four characters `"on"` including the double
quotes) — and on a failure Response its handler raises
`ClusterMaintenanceModeError` carrying that Response and Request. -/
theorem c6_amended_toggle_on (resp : Response) (h : resp.is_success = false) :
    Cluster.toggle_maintenance_mode logExec "on"
      = [(Cluster.toggleMaintenanceModeRequest "on",
          Cluster.toggleMaintenanceModeHandler "on")] ∧
    Cluster.toggleMaintenanceModeRequest "on"
      = { method := "put", endpoint := "/_admin/cluster/maintenance",
          params := [], headers := [], data := some "\"on\"" } ∧
    ("\"on\"" : String).length = 4 ∧
    (Cluster.toggleMaintenanceModeHandler "on" resp).1
      = .error (.typed (.maintenanceMode resp (Cluster.toggleMaintenanceModeRequest "on"))) := by
  refine ⟨rfl, rfl, rfl, ?_⟩
  simp [Cluster.toggleMaintenanceModeHandler, h]

/-- Witness for C6's amended claim at the concrete failure Response. -/
theorem c6_amended_witness :
    failResp.is_success = false ∧
    (Cluster.toggle_maintenance_mode logExec "on"
      = [(Cluster.toggleMaintenanceModeRequest "on",
          Cluster.toggleMaintenanceModeHandler "on")] ∧
    Cluster.toggleMaintenanceModeRequest "on"
      = { method := "put", endpoint := "/_admin/cluster/maintenance",
          params := [], headers := [], data := some "\"on\"" } ∧
    ("\"on\"" : String).length = 4 ∧
    (Cluster.toggleMaintenanceModeHandler "on" failResp).1
      = .error (.typed (.maintenanceMode failResp
          (Cluster.toggleMaintenanceModeRequest "on")))) :=
  ⟨rfl, c6_amended_toggle_on failResp rfl⟩

/-- The projection comprehension maps each item to its `endpoint` field
when every projection succeeds pairwise. -/
theorem projectEndpoints_of_forall2 (items vs : List Json)
    (h : List.Forall₂ (fun it v => it.getField "endpoint" = Except.ok v) items vs) :
    Cluster.projectEndpoints items = .ok vs := by
  induction h with
  | nil => rfl
  | cons h1 _ ih =>
    unfold Cluster.projectEndpoints
    rw [h1, ih]

/-- Claim C7: for every success Response whose body is a mapping with key
`endpoints` bound to a list of mappings each containing key `endpoint`,
`endpoints()` returns the list of those `endpoint` values in the same
order. -/
theorem c7_endpoints_projection
    (sc : Int) (fields : List (String × Json)) (items vs : List Json)
    (hf : fields.lookup "endpoints" = some (.arr items))
    (h : List.Forall₂ (fun it v => it.getField "endpoint" = Except.ok v) items vs) :
    (Cluster.endpoints (runWith
      { status_code := sc, is_success := true, body := .obj fields })).1
      = .ok (.arr vs) := by
  simp [Cluster.endpoints, runWith, Cluster.endpointsHandler, Json.getField, hf,
    Json.asIterable, projectEndpoints_of_forall2 items vs h]

/-- Witness for C7 at the concrete success Response
`{endpoints: [{endpoint: "tcp://a:1"}, {endpoint: "tcp://b:2"}]}`. -/
theorem c7_witness :
    ([("endpoints", Json.arr [.obj [("endpoint", .str "tcp://a:1")],
        .obj [("endpoint", .str "tcp://b:2")]])].lookup "endpoints"
      = some (.arr [.obj [("endpoint", .str "tcp://a:1")],
        .obj [("endpoint", .str "tcp://b:2")]])) ∧
    List.Forall₂ (fun it v => Json.getField it "endpoint" = Except.ok v)
      [.obj [("endpoint", .str "tcp://a:1")], .obj [("endpoint", .str "tcp://b:2")]]
      [.str "tcp://a:1", .str "tcp://b:2"] ∧
    (Cluster.endpoints (runWith
      { status_code := 200, is_success := true,
        body := .obj [("endpoints", .arr [.obj [("endpoint", .str "tcp://a:1")],
          .obj [("endpoint", .str "tcp://b:2")]])] })).1
      = .ok (.arr [.str "tcp://a:1", .str "tcp://b:2"]) :=
  ⟨rfl,
   List.Forall₂.cons rfl (List.Forall₂.cons rfl List.Forall₂.nil),
   c7_endpoints_projection 200 _ _ _ rfl
     (List.Forall₂.cons rfl (List.Forall₂.cons rfl List.Forall₂.nil))⟩

/-- Claim C9: every Cluster endpoint method, on every invocation and for
every input, builds exactly one Request, defines exactly one response
handler, performs exactly one Executor execute call, and returns the
Executor's result unchanged: run against any executor, the method is
exactly one `execute` application on its request/handler pair, and the
instrumenting executor records exactly that single call. -/
theorem c9_single_execute_call (s m : String) :
    (∀ (M : Type) (execute : Executor M),
      Cluster.server_id execute
        = execute Cluster.serverIdRequest Cluster.serverIdHandler ∧
      Cluster.server_role execute
        = execute Cluster.serverRoleRequest Cluster.serverRoleHandler ∧
      Cluster.server_version execute s
        = execute (Cluster.serverVersionRequest s) (Cluster.serverVersionHandler s) ∧
      Cluster.server_engine execute s
        = execute (Cluster.serverEngineRequest s) (Cluster.serverEngineHandler s) ∧
      Cluster.server_statistics execute s
        = execute (Cluster.serverStatisticsRequest s) (Cluster.serverStatisticsHandler s) ∧
      Cluster.health execute
        = execute Cluster.healthRequest Cluster.healthHandler ∧
      Cluster.toggle_maintenance_mode execute m
        = execute (Cluster.toggleMaintenanceModeRequest m)
            (Cluster.toggleMaintenanceModeHandler m) ∧
      Cluster.endpoints execute
        = execute Cluster.endpointsRequest Cluster.endpointsHandler) ∧
    Cluster.server_id logExec = [(Cluster.serverIdRequest, Cluster.serverIdHandler)] ∧
    Cluster.server_role logExec = [(Cluster.serverRoleRequest, Cluster.serverRoleHandler)] ∧
    Cluster.server_version logExec s
      = [(Cluster.serverVersionRequest s, Cluster.serverVersionHandler s)] ∧
    Cluster.server_engine logExec s
      = [(Cluster.serverEngineRequest s, Cluster.serverEngineHandler s)] ∧
    Cluster.server_statistics logExec s
      = [(Cluster.serverStatisticsRequest s, Cluster.serverStatisticsHandler s)] ∧
    Cluster.health logExec = [(Cluster.healthRequest, Cluster.healthHandler)] ∧
    Cluster.toggle_maintenance_mode logExec m
      = [(Cluster.toggleMaintenanceModeRequest m, Cluster.toggleMaintenanceModeHandler m)] ∧
    Cluster.endpoints logExec = [(Cluster.endpointsRequest, Cluster.endpointsHandler)] :=
  ⟨fun _ _ => ⟨rfl, rfl, rfl, rfl, rfl, rfl, rfl, rfl⟩,
   rfl, rfl, rfl, rfl, rfl, rfl, rfl, rfl⟩
